import Mathlib

/-!
Verification of the Unraid-Monitor collector suite
(`app/collectors/{array,docker,vms,memory,system,gpu_plugin,coral_tpu}.py`)
against its natural-language specification.

The collectors consume JSON-like payloads (Python dicts, lists, strings,
numbers, booleans and None) and emit `EntityUpdate` records.  We embed the
Python value space as the inductive type `Val`, machine floats as exact
rationals (all numbers appearing in the claims are exactly representable),
and Python-level exceptions as `Except String`.  Each collector's `parse`
and `fetch` is translated function-by-function from the Python source; the
only external effects (GraphQL queries, legacy HTTP requests, psutil reads)
are modelled as explicit environment arguments.
-/

/-- Euclid's algorithm with explicit fuel (structural recursion, so the
kernel can evaluate it; `a + 1` fuel always suffices because the first
argument strictly decreases). -/
def gcdF : Nat → Nat → Nat → Nat
  | _, 0, b => b
  | 0, a, _ => a
  | fuel + 1, a + 1, b => gcdF fuel (b % (a + 1)) (a + 1)

/-- Greatest common divisor via `gcdF`. -/
def natGcd (a b : Nat) : Nat := gcdF (a + 1) a b

/-- Exact rationals with kernel-reducible arithmetic.  (Library rational
arithmetic is irreducible by fiat, which would block evaluation inside
proofs.)  Values built by `Q.norm` keep `den` positive and the fraction
in lowest terms, so structural equality is value equality. -/
structure Q where
  num : Int
  den : Int
deriving Inhabited, DecidableEq, Repr

/-- Normalize a fraction: positive denominator, lowest terms. -/
def Q.norm (n d : Int) : Q :=
  if d = 0 then ⟨0, 1⟩
  else
    let s : Int := if d < 0 then -1 else 1
    let n := s * n
    let d := s * d
    let g : Int := (natGcd n.natAbs d.natAbs : Int)
    if g = 0 then ⟨0, 1⟩ else ⟨n.tdiv g, d.tdiv g⟩

def Q.ofInt (i : Int) : Q := ⟨i, 1⟩

instance : IntCast Q := ⟨Q.ofInt⟩

instance : NatCast Q := ⟨fun n => Q.ofInt n⟩

instance (n : Nat) : OfNat Q n := ⟨Q.ofInt n⟩

def Q.add (a b : Q) : Q := Q.norm (a.num * b.den + b.num * a.den) (a.den * b.den)

def Q.sub (a b : Q) : Q := Q.norm (a.num * b.den - b.num * a.den) (a.den * b.den)

def Q.mul (a b : Q) : Q := Q.norm (a.num * b.num) (a.den * b.den)

/-- Division; division by zero yields 0 (never reached by the claims —
the collectors guard their divisions). -/
def Q.div (a b : Q) : Q := Q.norm (a.num * b.den) (a.den * b.num)

def Q.neg (a : Q) : Q := ⟨-a.num, a.den⟩

instance : Add Q := ⟨Q.add⟩

instance : Sub Q := ⟨Q.sub⟩

instance : Mul Q := ⟨Q.mul⟩

instance : Div Q := ⟨Q.div⟩

instance : Neg Q := ⟨Q.neg⟩

def Q.powNat (q : Q) : Nat → Q
  | 0 => 1
  | n + 1 => Q.mul (Q.powNat q n) q

def Q.zpow (q : Q) : Int → Q
  | .ofNat n => q.powNat n
  | .negSucc n => Q.div 1 (q.powNat (n + 1))

instance : Pow Q Nat := ⟨Q.powNat⟩

instance : Pow Q Int := ⟨Q.zpow⟩

/-- Strict order by cross-multiplication (denominators are positive for
all values built through `Q.norm`). -/
def Q.blt (a b : Q) : Bool := a.num * b.den < b.num * a.den

instance : LT Q := ⟨fun a b => Q.blt a b = true⟩

instance Q.decLt (a b : Q) : Decidable (a < b) :=
  inferInstanceAs (Decidable (Q.blt a b = true))

instance : LE Q := ⟨fun a b => Q.blt b a = false⟩

instance Q.decLe (a b : Q) : Decidable (a ≤ b) :=
  inferInstanceAs (Decidable (Q.blt b a = false))

/-- Floor of a rational (floor division of numerator by denominator). -/
def Q.floor (a : Q) : Int := a.num.fdiv a.den

/-- Ceiling of a rational. -/
def Q.ceil (a : Q) : Int := -((Q.neg a).floor)

/-- Shallow embedding of the Python/JSON value space used by the collectors.
`float` carries an exact rational: every IEEE double is a dyadic rational,
and all numeric literals in the claims are exactly representable. -/
inductive Val where
  | null : Val
  | bool : Bool → Val
  | int : Int → Val
  | float : Q → Val
  | str : String → Val
  | list : List Val → Val
  | dict : List (String × Val) → Val
deriving Inhabited

/-- Python truthiness (`bool(v)`): `None`, `False`, `0`, `0.0`, `""`, `[]`,
`{}` are falsy, everything else truthy. -/
def Val.truthy : Val → Bool
  | .null => false
  | .bool b => b
  | .int i => i != 0
  | .float q => q != 0
  | .str s => s ≠ ""
  | .list l => !l.isEmpty
  | .dict l => !l.isEmpty

/-- First binding of key `k` in an association list (Python dict lookup;
Python dicts have unique keys, so first-match lookup is faithful). -/
def dictGet (kvs : List (String × Val)) (k : String) : Option Val :=
  match kvs.find? (fun p => p.fst == k) with
  | some p => some p.snd
  | _ => Option.none

/-- Python `v.get(k, d)`: dict lookup with default; raises `AttributeError`
when `v` is not a dict. -/
def Val.getD (v : Val) (k : String) (d : Val) : Except String Val :=
  match v with
  | .dict kvs => .ok ((dictGet kvs k).getD d)
  | _ => .error "AttributeError: object has no attribute get"

/-- Python `for x in v`: lists iterate elements, dicts iterate keys,
strings iterate 1-character strings; other values raise `TypeError`. -/
def asIterable (v : Val) : Except String (List Val) :=
  match v with
  | .list l => .ok l
  | .dict kvs => .ok (kvs.map (fun p => Val.str p.fst))
  | .str s => .ok (s.data.map (fun c => Val.str (String.mk [c])))
  | _ => .error "TypeError: object is not iterable"

/-- Python `len(v)` for sized values; `none` models `TypeError`. -/
def lenOf (v : Val) : Option Nat :=
  match v with
  | .list l => some l.length
  | .str s => some s.length
  | .dict l => some l.length
  | _ => Option.none

/-- Strip ASCII/unicode whitespace from both ends of a character list
(Python `str.strip()`). -/
def stripChars (cs : List Char) : List Char :=
  ((cs.dropWhile Char.isWhitespace).reverse.dropWhile Char.isWhitespace).reverse

/-- Value of a digit string (most significant first). -/
def digToNat (cs : List Char) : Nat :=
  cs.foldl (fun a c => a * 10 + (c.toNat - 48)) 0

/-- Parse the exponent tail of a Python float literal: empty, or
`e`/`E` followed by an optional sign and a nonempty digit string that
ends the input. -/
def parseExpTail (cs : List Char) : Option Int :=
  match cs with
  | [] => some 0
  | c :: r =>
    if c = 'e' ∨ c = 'E' then
      let (sg, r2) : Int × List Char :=
        match r with
        | '+' :: t => (1, t)
        | '-' :: t => (-1, t)
        | t => (1, t)
      let ds := r2.takeWhile Char.isDigit
      let rest := r2.dropWhile Char.isDigit
      if ds.isEmpty ∨ !rest.isEmpty then Option.none
      else some (sg * (digToNat ds : Int))
    else Option.none

/-- Core of Python `float(string)` on a stripped character list: optional
sign, then either `digits[.digits]` or `.digits`, then an optional
exponent; anything else raises `ValueError` (modelled as `none`).
Special spellings such as `inf`/`nan` are outside the inputs of this
code base and are not modelled. -/
def pyFloatChars (cs : List Char) : Option Q :=
  let (sg, cs) : Q × List Char :=
    match cs with
    | '+' :: t => (1, t)
    | '-' :: t => (-1, t)
    | t => (1, t)
  let ip := cs.takeWhile Char.isDigit
  let r1 := cs.dropWhile Char.isDigit
  match r1 with
  | '.' :: r2 =>
    let fp := r2.takeWhile Char.isDigit
    let r3 := r2.dropWhile Char.isDigit
    if ip.isEmpty ∧ fp.isEmpty then Option.none
    else
      match parseExpTail r3 with
      | some e => some (sg * ((digToNat ip : Q) + (digToNat fp : Q) / 10 ^ fp.length) * 10 ^ e)
      | _ => Option.none
  | r2 =>
    if ip.isEmpty then Option.none
    else
      match parseExpTail r2 with
      | some e => some (sg * (digToNat ip : Q) * 10 ^ e)
      | _ => Option.none

/-- Python `float(s)` on a string (strips surrounding whitespace itself). -/
def pyFloatStr (s : String) : Option Q :=
  pyFloatChars (stripChars s.data)

/-- Python `int(s)` on a string: optional sign and a nonempty digit string
(no decimal point allowed). -/
def pyIntStr (s : String) : Option Int :=
  let cs := stripChars s.data
  let (sg, cs) : Int × List Char :=
    match cs with
    | '+' :: t => (1, t)
    | '-' :: t => (-1, t)
    | t => (1, t)
  if cs.isEmpty ∨ !cs.all Char.isDigit then Option.none
  else some (sg * (digToNat cs : Int))

/-- Truncation toward zero, as Python `int(float)`. -/
def truncQ (q : Q) : Int :=
  if 0 ≤ q then q.floor else q.ceil

/-- Python `float(v)` on an arbitrary value; `none` models
`TypeError`/`ValueError`. -/
def pyFloatVal (v : Val) : Option Q :=
  match v with
  | .int i => some (i : Q)
  | .float q => some q
  | .bool b => some (if b then 1 else 0)
  | .str s => pyFloatStr s
  | _ => Option.none

/-- Round-half-to-even on rationals, the rounding used by Python `round`. -/
def roundHalfEven (q : Q) : Int :=
  let f : Int := q.floor
  let r : Q := q - (f : Q)
  if r < 1/2 then f
  else if 1/2 < r then f + 1
  else if f % 2 = 0 then f else f + 1

/-- Python `round(q, n)` over exact rationals. -/
def pyRound (q : Q) (n : Nat) : Q :=
  ((roundHalfEven (q * 10 ^ n) : Int) : Q) / 10 ^ n

/-- Replace every occurrence of the nonempty pattern `pat` by `rep`
(Python `str.replace`), left to right, non-overlapping.  Structural
recursion on a fuel argument (each step consumes at least one character,
so `l.length` fuel is always enough). -/
def replaceFrom (pat rep : List Char) : Nat → List Char → List Char
  | 0, l => l
  | _ + 1, [] => []
  | fuel + 1, c :: cs =>
    if pat.isPrefixOf (c :: cs) then
      rep ++ replaceFrom pat rep fuel ((c :: cs).drop pat.length)
    else
      c :: replaceFrom pat rep fuel cs

/-- Python `s.replace(pat, rep)` for a nonempty pattern. -/
def pyReplace (s pat rep : String) : String :=
  String.mk (replaceFrom pat.data rep.data s.data.length s.data)

/-- Python `s.strip()`. -/
def pyStrip (s : String) : String :=
  String.mk (stripChars s.data)

/-- Python `s.lower()` (ASCII-adequate for this code base). -/
def pyLower (s : String) : String :=
  String.mk (s.data.map Char.toLower)

/-- Python `needle in haystack` substring test. -/
def containsSub (pat : List Char) : List Char → Bool
  | [] => pat.isEmpty
  | c :: cs => pat.isPrefixOf (c :: cs) || containsSub pat cs

/-- Python `s.lstrip c` for a single character. -/
def lstripChar (c : Char) (s : String) : String :=
  String.mk (s.data.dropWhile (fun x => x == c))

/-- Smallest exponent `k ≤ 64` with `den ∣ 10 ^ k`, used to print dyadic
rationals the way Python prints floats. -/
def findDecExp (den : Nat) : Option Nat :=
  (List.range 65).find? (fun k => 10 ^ k % den == 0)

/-- Left-pad a character list with zeros to length `n`. -/
def padZeros (n : Nat) (cs : List Char) : List Char :=
  List.replicate (n - cs.length) '0' ++ cs

/-- Render of a float with finite decimal expansion, matching Python
`str(float)` on the dyadic rationals that floats denote: at least one
digit on each side of the point, trailing fractional zeros dropped. -/
def floatRepr (q : Q) : String :=
  match findDecExp q.den.natAbs with
  | some 0 => toString q.num ++ ".0"
  | some k =>
    let m := q.num.natAbs * 10 ^ k / q.den.natAbs
    let ds := (toString m).data
    let ds := padZeros (k + 1) ds
    let ipart := ds.take (ds.length - k)
    let fpart := ds.drop (ds.length - k)
    let fpart := (fpart.reverse.dropWhile (fun c => c == '0')).reverse
    let fpart := if fpart.isEmpty then ['0'] else fpart
    (if q.num < 0 then "-" else "") ++ String.mk ipart ++ "." ++ String.mk fpart
  | _ => toString q.num ++ "/" ++ toString q.den

/-- Python `str(v)`.  Faithful on `None`, booleans, integers, floats and
strings — the only values the collectors stringify.  For containers we
emit a bracketed placeholder; like Python's rendering it never parses as
a number, which is all the collectors' validity checks observe. -/
def pyStr (v : Val) : String :=
  match v with
  | .null => "None"
  | .bool b => if b then "True" else "False"
  | .int i => toString i
  | .float q => floatRepr q
  | .str s => s
  | .list _ => "[...]"
  | .dict _ => "{...}"

/-- Modelled from the spec (§3 EntityUpdate): the normalized output unit
of every collector.  Its defining module (`app/collectors/base.py`) is not
part of the sources under review; fields and defaults follow the spec's
data model (`attributes` optional, `retain` off, `expire_after` absent =
never expires) and the keyword arguments used by the collectors. -/
structure EntityUpdate where
  sensor_type : String
  payload : List (String × Val)
  state : Val
  attributes : List (String × Val) := []
  unique_id_suffix : String
  retain : Bool := false
  expire_after : Option Int := Option.none
deriving Inhabited

/-- Payload field `name` of an update rendered as a string (empty when
absent or non-string); used to phrase claims about emitted entities. -/
def nameStr (u : EntityUpdate) : String :=
  match dictGet u.payload "name" with
  | some (.str s) => s
  | _ => ""

/-- Payload field `icon` of an update rendered as a string. -/
def iconStr (u : EntityUpdate) : String :=
  match dictGet u.payload "icon" with
  | some (.str s) => s
  | _ => ""

/-- Boolean test that an update's payload name equals `s`. -/
def nameIs (u : EntityUpdate) (s : String) : Bool :=
  nameStr u == s

/-- Python `a or b` on values: `b` when `a` is falsy. -/
def pyOr (a b : Val) : Val :=
  if a.truthy then a else b

/-- Python `v > 0` where `v` came from JSON: numeric kinds compare,
anything else raises `TypeError` (Python 3 has no mixed-type order). -/
def pyGtZero (v : Val) : Except String Bool :=
  match v with
  | .int i => .ok (decide (0 < i))
  | .float q => .ok (decide (0 < q))
  | .bool b => .ok b
  | _ => .error "TypeError: unsupported comparison with int"

/-- Python `int(v)` with `ValueError`/`TypeError` reported as `none`:
exact on ints and bools, truncates floats, parses integer strings. -/
def pyIntCast (v : Val) : Option Int :=
  match v with
  | .int i => some i
  | .bool b => some (if b then 1 else 0)
  | .float q => some (truncQ q)
  | .str s => pyIntStr s
  | _ => Option.none

/-- The fixed GraphQL query of the array collector. -/
def ArrayCollector.query : String :=
  "query { array { state capacity { kilobytes { free used total } disks { free used total } } parities { id name device size status temp } disks { id name device size status temp fsType fsSize fsUsed fsFree } caches { id name device size status temp fsType fsSize fsUsed fsFree } } }"

/-- Loop body of `ArrayCollector.parse` for one parity record
(array.py lines 142-196): status sensor always, temperature sensor when
`temp` is truthy and positive, size sensor when `size` is truthy and
positive and `int(size)` succeeds. -/
def ArrayCollector.parityStep (p : Val) : Except String (List EntityUpdate) := do
  match p with
  | .dict d =>
    let name := (dictGet d "name").getD (.str "parity")
    let status := (dictGet d "status").getD (.str "UNKNOWN")
    let temp := (dictGet d "temp").getD (.int 0)
    let size := (dictGet d "size").getD (.int 0)
    let nm := pyStr name
    let statusU : EntityUpdate :=
      { sensor_type := "sensor",
        payload := [("name", .str ("Parity " ++ nm ++ " Status")), ("icon", .str "mdi:shield-check")],
        state := status,
        unique_id_suffix := "parity_" ++ nm ++ "_status" }
    let tempPart ←
      if temp.truthy then do
        let b ← pyGtZero temp
        if b then
          pure [{ sensor_type := "sensor",
                  payload := [("name", .str ("Parity " ++ nm ++ " Temperature")), ("unit_of_measurement", .str "°C"), ("device_class", .str "temperature"), ("state_class", .str "measurement")],
                  state := temp,
                  unique_id_suffix := "parity_" ++ nm ++ "_temperature" } ]
        else pure []
      else pure ([] : List EntityUpdate)
    let sizePart ←
      if size.truthy then do
        let b ← pyGtZero size
        if b then
          match pyIntCast size with
          | some i =>
            pure [{ sensor_type := "sensor",
                    payload := [("name", .str ("Parity " ++ nm ++ " Size")), ("unit_of_measurement", .str "TB"), ("icon", .str "mdi:harddisk"), ("state_class", .str "measurement")],
                    state := .float (pyRound ((i : Q) * 1024 / 1000000000000) 2),
                    unique_id_suffix := "parity_" ++ nm ++ "_size",
                    retain := true } ]
          | _ => pure []
        else pure []
      else pure ([] : List EntityUpdate)
    return [statusU] ++ tempPart ++ sizePart
  | _ => return []

/-- `ArrayCollector.parse` (array.py lines 77-198). -/
def ArrayCollector.parse (data : Val) : Except String (List EntityUpdate) := do
  let arrayData ← data.getD "array" (.dict [])
  if !arrayData.truthy then return []
  let state := ← arrayData.getD "state" (.str "UNKNOWN")
  let stateU : EntityUpdate :=
    { sensor_type := "sensor",
      payload := [("name", .str "Array State"), ("icon", .str "mdi:server")],
      state := state,
      unique_id_suffix := "array_state" }
  let capacity ← arrayData.getD "capacity" (.dict [])
  let kilobytes ← capacity.getD "kilobytes" (.dict [])
  let usagePart ←
    if kilobytes.truthy then do
      let vt ← kilobytes.getD "total" (.int 0)
      let vu ← kilobytes.getD "used" (.int 0)
      let vf ← kilobytes.getD "free" (.int 0)
      let totalKb ← match pyFloatVal (pyOr vt (.int 0)) with
        | some q => Except.ok q
        | _ => Except.error "ValueError: could not convert to float"
      let usedKb ← match pyFloatVal (pyOr vu (.int 0)) with
        | some q => Except.ok q
        | _ => Except.error "ValueError: could not convert to float"
      let freeKb ← match pyFloatVal (pyOr vf (.int 0)) with
        | some q => Except.ok q
        | _ => Except.error "ValueError: could not convert to float"
      let totalTb := if totalKb ≠ 0 then pyRound (totalKb / 1024 ^ 3) 2 else 0
      let usedTb := if usedKb ≠ 0 then pyRound (usedKb / 1024 ^ 3) 2 else 0
      let freeTb := if freeKb ≠ 0 then pyRound (freeKb / 1024 ^ 3) 2 else 0
      let usagePct := if totalKb ≠ 0 then pyRound (usedKb / totalKb * 100) 2 else 0
      pure [{ sensor_type := "sensor",
              payload := [("name", .str "Array Usage"), ("unit_of_measurement", .str "%"), ("icon", .str "mdi:database"), ("state_class", .str "measurement")],
              state := .float usagePct,
              attributes := [("total_tb", .float totalTb), ("used_tb", .float usedTb), ("free_tb", .float freeTb)],
              unique_id_suffix := "array_usage" } ]
    else pure ([] : List EntityUpdate)
  let parities ← arrayData.getD "parities" (.list [])
  let ps ← asIterable parities
  let parityParts ← ps.mapM parityStep
  return [stateU] ++ usagePart ++ parityParts.flatten

/-- The fixed GraphQL query of the docker collector. -/
def DockerCollector.query : String :=
  "query { docker { containers { id names image state status autoStart ports { ip privatePort publicPort type } } } }"

/-- Container-name extraction from one container record (docker.py lines
59-65): `names[0].lstrip(slash)` for a list, `str(names).lstrip(slash)`
otherwise; `none` rendered when `names` is falsy (the loop `continue`s). -/
def DockerCollector.containerName (c : Val) : Except String (Option String) := do
  let names ← c.getD "names" (.list [])
  if !names.truthy then return Option.none
  match names with
  | .list (v :: _) =>
    match v with
    | .str s => return some (lstripChar '/' s)
    | _ => .error "AttributeError: object has no attribute lstrip"
  | .list [] => return Option.none
  | other => return some (lstripChar '/' (pyStr other))

/-- One port-mapping string (docker.py lines 80-86): non-dict ports and
mappings with a falsy private or public port are skipped. -/
def DockerCollector.portMapping (p : Val) : Option Val :=
  match p with
  | .dict d =>
    let priv := (dictGet d "privatePort").getD (.str "")
    let pub := (dictGet d "publicPort").getD (.str "")
    let ty := (dictGet d "type").getD (.str "tcp")
    if priv.truthy && pub.truthy then
      some (.str (pyStr pub ++ ":" ++ pyStr priv ++ "/" ++ pyStr ty))
    else Option.none
  | _ => Option.none

/-- Non-identity fields extracted from one container record
(docker.py lines 67-96). -/
structure DockerFields where
  stateStr : String
  image : Val
  status : Val
  autoStart : Val
  portMappings : List Val
  shortId : Val

/-- Extraction of the non-identity fields of a container record. -/
def DockerCollector.restFields (c : Val) : Except String DockerFields := do
  let stV ← c.getD "state" (.str "")
  let stateStr ← match stV with
    | .str s => Except.ok (pyLower s)
    | _ => Except.error "AttributeError: object has no attribute lower"
  let image ← c.getD "image" (.str "")
  let status ← c.getD "status" (.str "")
  let autoStart ← c.getD "autoStart" (.bool false)
  let ports ← c.getD "ports" (.list [])
  let portVals ← asIterable ports
  let idV ← c.getD "id" (.str "")
  let shortId ← match idV with
    | .str s => Except.ok (Val.str (String.mk (s.data.take 12)))
    | .list l => Except.ok (Val.list (l.take 12))
    | _ => Except.error "TypeError: object is not subscriptable"
  return ⟨stateStr, image, status, autoStart, portVals.filterMap portMapping, shortId⟩

/-- The single binary-sensor update for a container of name `n`
(docker.py lines 98-109); its `unique_id_suffix` depends on `n` alone. -/
def DockerCollector.mkUpdate (n : String) (f : DockerFields) : EntityUpdate :=
  { sensor_type := "binary_sensor",
    payload := [("name", .str ("Docker " ++ n ++ " State")), ("device_class", .str "running"), ("icon", .str "mdi:docker")],
    state := .str (if f.stateStr == "running" then "ON" else "OFF"),
    attributes := [("container_id", f.shortId), ("image", f.image), ("status", f.status), ("state", .str f.stateStr), ("auto_start", f.autoStart), ("port_mappings", .list f.portMappings)],
    unique_id_suffix := "docker_" ++ n ++ "_state" }

/-- Loop body of `DockerCollector.parse` for one container record. -/
def DockerCollector.containerStep (c : Val) : Except String (List EntityUpdate) := do
  match ← containerName c with
  | Option.none => return []
  | some n =>
    let f ← restFields c
    return [mkUpdate n f]

/-- `DockerCollector.parse` (docker.py lines 46-113). -/
def DockerCollector.parse (data : Val) : Except String (List EntityUpdate) := do
  let docker ← data.getD "docker" (.dict [])
  let containers ← docker.getD "containers" (.list [])
  if !containers.truthy then return []
  let cs ← asIterable containers
  let ls ← cs.mapM containerStep
  return ls.flatten

/-- `SystemCollector.parse` (system.py lines 34-69): formats the uptime
in days/hours/minutes/seconds and emits a single retained sensor. -/
def SystemCollector.parse (data : Val) : Except String (List EntityUpdate) := do
  let up ← data.getD "uptime_seconds" (.int 0)
  if !up.truthy then return []
  let pretty ← match up with
    | .int u =>
      let (days, r1) := (u.fdiv 86400, u.fmod 86400)
      let (hours, r2) := (r1.fdiv 3600, r1.fmod 3600)
      let (minutes, seconds) := (r2.fdiv 60, r2.fmod 60)
      Except.ok (toString days ++ "d " ++ toString hours ++ "h " ++ toString minutes ++ "m " ++ toString seconds ++ "s")
    | .bool _ =>
      Except.ok "0d 0h 0m 1s"
    | .float q =>
      let days : Q := ((Q.floor (q / 86400) : Int) : Q)
      let r1 : Q := q - days * 86400
      let hours : Q := ((Q.floor (r1 / 3600) : Int) : Q)
      let r2 : Q := r1 - hours * 3600
      let minutes : Q := ((Q.floor (r2 / 60) : Int) : Q)
      let seconds : Q := r2 - minutes * 60
      Except.ok (floatRepr days ++ "d " ++ floatRepr hours ++ "h " ++ floatRepr minutes ++ "m " ++ floatRepr seconds ++ "s")
    | _ => Except.error "TypeError: unsupported operand types for divmod"
  return [{ sensor_type := "sensor",
            payload := [("name", .str "System Uptime"), ("icon", .str "mdi:clock-outline"), ("state_class", .str "measurement"), ("unit_of_measurement", .str "s")],
            state := up,
            attributes := [("formatted", .str pretty)],
            unique_id_suffix := "system_uptime",
            retain := true } ]

/-- `MemoryCollector._to_bytes` (memory.py lines 275-289): `int(value)`,
falling back to `int(float(value))`, falling back to `0`. -/
def MemoryCollector.toBytes (v : Val) : Int :=
  match v with
  | .int i => i
  | .bool b => if b then 1 else 0
  | .float q => truncQ q
  | .str s =>
    match pyIntStr s with
    | some i => i
    | _ =>
      match pyFloatStr s with
      | some q => truncQ q
      | _ => 0
  | _ => 0

/-- `MemoryCollector._bytes_to_gib` (memory.py lines 291-296). -/
def MemoryCollector.bytesToGib (b : Int) : Q :=
  if b ≤ 0 then 0 else pyRound ((b : Q) / 1024 ^ 3) 2

/-- `MemoryCollector.parse` (memory.py lines 125-273): reads the
`source`/`data` wrapper produced by `fetch`, converts the nested byte
counts and emits Total/Used/Free plus optional breakdown sensors. -/
def MemoryCollector.parse (interval : Int) (data : Val) : Except String (List EntityUpdate) := do
  if !data.truthy then return []
  let source ← data.getD "source" (.str "unknown")
  let memData ← data.getD "data" (.dict [])
  if !memData.truthy then return []
  let vTotal ← memData.getD "total" .null
  let vTotalB ← memData.getD "totalBytes" (.int 0)
  let totalBytes := toBytes (pyOr vTotal vTotalB)
  let vUsed ← memData.getD "used" .null
  let vUsedB ← memData.getD "usedBytes" (.int 0)
  let usedBytes := toBytes (pyOr vUsed vUsedB)
  let vFree ← memData.getD "free" .null
  let vFreeB ← memData.getD "freeBytes" (.int 0)
  let freeBytes0 := toBytes (pyOr vFree vFreeB)
  let vAvail ← memData.getD "available" .null
  let vAvailB ← memData.getD "availableBytes" (.int 0)
  let availableBytes := toBytes (pyOr vAvail vAvailB)
  let vSystem ← memData.getD "system" (.int 0)
  let systemBytes := toBytes vSystem
  let vVm ← memData.getD "vm" (.int 0)
  let vmBytes := toBytes vVm
  let vDocker ← memData.getD "docker" (.int 0)
  let dockerBytes := toBytes vDocker
  let freeBytes := if freeBytes0 = 0 ∧ totalBytes > 0 ∧ usedBytes > 0 then totalBytes - usedBytes else freeBytes0
  let totalGib := bytesToGib totalBytes
  let usedGib := bytesToGib usedBytes
  let freeGib := bytesToGib freeBytes
  let expire := some (max (interval * 3) 120)
  let totalPart : List EntityUpdate :=
    if 0 < totalGib then
      [{ sensor_type := "sensor",
         payload := [("name", .str "Memory Total"), ("unit_of_measurement", .str "GiB"), ("icon", .str "mdi:memory"), ("state_class", .str "total")],
         state := .float totalGib,
         attributes := [("bytes", .int totalBytes), ("source", source)],
         unique_id_suffix := "memory_total",
         retain := true, expire_after := expire } ]
    else []
  let usedPart : List EntityUpdate :=
    if 0 < totalGib then
      [{ sensor_type := "sensor",
         payload := [("name", .str "Memory Used"), ("unit_of_measurement", .str "GiB"), ("icon", .str "mdi:memory"), ("state_class", .str "measurement")],
         state := .float usedGib,
         attributes := [("bytes", .int usedBytes), ("percent", if 0 < totalBytes then .float (pyRound ((usedBytes : Q) / (totalBytes : Q) * 100) 1) else .int 0)],
         unique_id_suffix := "memory_used",
         retain := false, expire_after := expire } ]
    else []
  let freePart : List EntityUpdate :=
    if 0 < totalGib then
      [{ sensor_type := "sensor",
         payload := [("name", .str "Memory Free"), ("unit_of_measurement", .str "GiB"), ("icon", .str "mdi:memory"), ("state_class", .str "measurement")],
         state := .float freeGib,
         attributes := [("bytes", .int freeBytes), ("available_bytes", .int availableBytes), ("available_gib", .float (bytesToGib availableBytes))],
         unique_id_suffix := "memory_free",
         retain := false, expire_after := expire } ]
    else []
  let systemPart : List EntityUpdate :=
    if 0 < systemBytes then
      [{ sensor_type := "sensor",
         payload := [("name", .str "Memory System"), ("unit_of_measurement", .str "GiB"), ("icon", .str "mdi:cog"), ("state_class", .str "measurement")],
         state := .float (bytesToGib systemBytes),
         attributes := [("bytes", .int systemBytes)],
         unique_id_suffix := "memory_system",
         retain := false, expire_after := expire } ]
    else []
  let vmPart : List EntityUpdate :=
    if 0 < vmBytes then
      [{ sensor_type := "sensor",
         payload := [("name", .str "Memory VM"), ("unit_of_measurement", .str "GiB"), ("icon", .str "mdi:monitor"), ("state_class", .str "measurement")],
         state := .float (bytesToGib vmBytes),
         attributes := [("bytes", .int vmBytes)],
         unique_id_suffix := "memory_vm",
         retain := false, expire_after := expire } ]
    else []
  let dockerPart : List EntityUpdate :=
    if 0 < dockerBytes then
      [{ sensor_type := "sensor",
         payload := [("name", .str "Memory Docker"), ("unit_of_measurement", .str "GiB"), ("icon", .str "mdi:docker"), ("state_class", .str "measurement")],
         state := .float (bytesToGib dockerBytes),
         attributes := [("bytes", .int dockerBytes)],
         unique_id_suffix := "memory_docker",
         retain := false, expire_after := expire } ]
    else []
  return totalPart ++ usedPart ++ freePart ++ systemPart ++ vmPart ++ dockerPart

/-- Result of the legacy-HTTP VM-spec scrape `_fetch_vm_specs` for one VM:
vCPU count and memory in MB (vms.py lines 44-76). -/
structure VmSpec where
  vcpus : Int
  memory_mb : Int

/-- The mapping VM name to `VmSpec` that `_fetch_vm_specs` returns for
the current state of the external legacy HTTP endpoint.  `parse` calls
`_fetch_vm_specs` (an HTTP GET of `VMMachines.php`), so this environment
is an input of `VMsCollector.parse`. -/
def VmSpecsEnv : Type := List (String × VmSpec)

/-- Lookup in the VM-spec mapping (Python `vm_specs.get(name, {})`). -/
def specsGet (env : VmSpecsEnv) (n : String) : Option VmSpec :=
  match (List.find? (fun p => p.fst == n) env) with
  | some p => some p.snd
  | _ => Option.none

/-- The fixed GraphQL query of the vms collector. -/
def VMsCollector.query : String :=
  "query { vms { id domains { id uuid name state } } }"

/-- Loop body of `VMsCollector.parse` for one VM domain record
(vms.py lines 102-171). -/
def VMsCollector.domainStep (env : VmSpecsEnv) (vm : Val) : Except String (List EntityUpdate) := do
  let nameV ← vm.getD "name" (.str "")
  if !nameV.truthy then return []
  let stV ← vm.getD "state" (.str "")
  let st ← match stV with
    | .str s => Except.ok (pyLower s)
    | _ => Except.error "AttributeError: object has no attribute lower"
  let isRunning := containsSub "running".data st.data
  let power := if isRunning then "ON" else "OFF"
  let uuid ← vm.getD "uuid" (.str "")
  let spec := match nameV with
    | .str s => specsGet env s
    | _ => Option.none
  let vcpus := (spec.map (fun sp => sp.vcpus)).getD 0
  let memMb := (spec.map (fun sp => sp.memory_mb)).getD 0
  let nm := pyStr nameV
  let attrs := [("uuid", uuid), ("state", .str st)]
    ++ (if vcpus ≠ 0 then [("vcpus", Val.int vcpus)] else [])
    ++ (if memMb ≠ 0 then [("memory_mb", Val.int memMb)] else [])
  let stateU : EntityUpdate :=
    { sensor_type := "binary_sensor",
      payload := [("name", .str ("VM " ++ nm ++ " State")), ("device_class", .str "running"), ("icon", .str "mdi:monitor")],
      state := .str power,
      attributes := attrs,
      unique_id_suffix := "vm_" ++ nm ++ "_state" }
  let vcpuPart : List EntityUpdate :=
    if vcpus ≠ 0 then
      [{ sensor_type := "sensor",
         payload := [("name", .str ("VM " ++ nm ++ " vCPUs")), ("unit_of_measurement", .str ""), ("icon", .str "mdi:chip"), ("state_class", .str "measurement")],
         state := .int vcpus,
         unique_id_suffix := "vm_" ++ nm ++ "_vcpus" } ]
    else []
  let memPart : List EntityUpdate :=
    if memMb ≠ 0 then
      [{ sensor_type := "sensor",
         payload := [("name", .str ("VM " ++ nm ++ " Memory")), ("unit_of_measurement", .str "MB"), ("icon", .str "mdi:memory"), ("state_class", .str "measurement")],
         state := .int memMb,
         unique_id_suffix := "vm_" ++ nm ++ "_memory" } ]
    else []
  return [stateU] ++ vcpuPart ++ memPart

/-- `VMsCollector.parse` (vms.py lines 78-173).  Unlike every other
collector, this `parse` performs I/O: when the input contains VM domains
it awaits `_fetch_vm_specs()`, an HTTP GET against the legacy web UI, so
it takes the VM-spec environment as an extra argument. -/
def VMsCollector.parse (env : VmSpecsEnv) (data : Val) : Except String (List EntityUpdate) := do
  let vmsData ← data.getD "vms" (.dict [])
  if !vmsData.truthy then return []
  let domainsV ← vmsData.getD "domains" (.list [])
  let domains := match domainsV with
    | .list l => l
    | v => if v.truthy then [v] else []
  if domains.isEmpty then return []
  let ls ← domains.mapM (domainStep env)
  return ls.flatten

/-- Modelled from its call site and name (`from app.utils import
normalize_keys_lower`; `app/utils.py` is not among the sources under
review): lowercases the keys of a mapping. -/
def normalizeKeysLower (kvs : List (String × Val)) : List (String × Val) :=
  kvs.map (fun p => (pyLower p.fst, p.snd))

/-- `is_valid` from `GpuPluginCollector.parse` (gpu_plugin.py lines
80-94): `None`, the literal invalid markers, and values whose rendering
does not parse as a float after stripping percent, degree-C, watt and
space characters, are invalid. -/
def GpuPluginCollector.isValid (v : Val) : Bool :=
  match v with
  | .null => false
  | _ =>
    let sv := pyStrip (pyStr v)
    if sv == "N/A" || sv == "N\\/A" || sv == "Unknown" || sv == "unknown" || sv == "" then false
    else
      let cleaned := pyReplace (pyReplace (pyReplace (pyReplace sv "%" "") "°C" "") "W" "") " " ""
      (pyFloatStr (pyStrip cleaned)).isSome

/-- `get_field` from `GpuPluginCollector.parse` (gpu_plugin.py lines
96-101): first present, non-`None` value among the given keys. -/
def GpuPluginCollector.getField (g : List (String × Val)) (keys : List String) : Option Val :=
  keys.findSome? (fun k =>
    match dictGet g k with
    | some Val.null => Option.none
    | some v => some v
    | _ => Option.none)

/-- `int(float(str(v).replace(suffix, empty).strip()))`, the per-field
numeric conversion of the GPU collector; `none` models the exception. -/
def GpuPluginCollector.cleanNum (suffix : String) (v : Val) : Option Int :=
  (pyFloatStr (pyStrip (pyReplace (pyStr v) suffix ""))).map truncQ

/-- Loop body of `GpuPluginCollector.parse` for one GPU record
(gpu_plugin.py lines 103-250): load, memory-usage, fan, power,
temperature and summary entities, each guarded by `is_valid` and its own
conversion.  This body raises no exception (all conversions are inside
`try` blocks), so it is a total function. -/
def GpuPluginCollector.recordUpdates (interval : Int) (gid : String) (g : List (String × Val)) : List EntityUpdate :=
  let nameV := (getField g ["name", "model", "productname"]).getD .null
  let nm := pyStr (if nameV.truthy then nameV else .str ("GPU " ++ gid))
  let expire := some (max (interval * 2) 60)
  let util := (getField g ["util", "gpuutil", "utilization", "load"]).getD .null
  let loadPart : List EntityUpdate :=
    if isValid util then
      [{ sensor_type := "sensor",
         payload := [("name", .str (nm ++ " Load")), ("unit_of_measurement", .str "%"), ("icon", .str "mdi:chart-line"), ("state_class", .str "measurement")],
         state := .int ((cleanNum "%" util).getD 0),
         unique_id_suffix := gid ++ "_load",
         retain := false, expire_after := expire } ]
    else []
  let memPart : List EntityUpdate :=
    if isValid ((dictGet g "memutil").getD .null) && isValid ((dictGet g "memused").getD .null) && isValid ((dictGet g "memtotal").getD .null) then
      match pyFloatVal ((dictGet g "memused").getD .null), pyFloatVal ((dictGet g "memtotal").getD .null), pyFloatStr (pyStrip (pyReplace (pyStr ((dictGet g "memutil").getD .null)) "%" "")) with
      | some us, some tot, some pct =>
        [{ sensor_type := "sensor",
           payload := [("name", .str (nm ++ " Memory Usage")), ("unit_of_measurement", .str "%"), ("icon", .str "mdi:memory"), ("state_class", .str "measurement")],
           state := .int (truncQ pct),
           attributes := [("used", .int (truncQ us)), ("total", .int (truncQ tot))],
           unique_id_suffix := gid ++ "_mem",
           retain := false, expire_after := expire } ]
      | _, _, _ => []
    else []
  let fan := (dictGet g "fan").getD .null
  let fanPart : List EntityUpdate :=
    if isValid fan then
      [{ sensor_type := "sensor",
         payload := [("name", .str (nm ++ " Fan Speed")), ("unit_of_measurement", .str "%"), ("icon", .str "mdi:fan"), ("state_class", .str "measurement")],
         state := .int ((cleanNum "%" fan).getD 0),
         unique_id_suffix := gid ++ "_fan",
         retain := false, expire_after := expire } ]
    else []
  let power := (dictGet g "power").getD .null
  let powerPart : List EntityUpdate :=
    if isValid power then
      [{ sensor_type := "sensor",
         payload := [("name", .str (nm ++ " Power Usage")), ("unit_of_measurement", .str "W"), ("icon", .str "mdi:flash"), ("state_class", .str "measurement")],
         state := .int ((cleanNum "W" power).getD 0),
         unique_id_suffix := gid ++ "_power",
         retain := false, expire_after := expire } ]
    else []
  let temp := (dictGet g "temp").getD .null
  let tempPart : List EntityUpdate :=
    if isValid temp then
      [{ sensor_type := "sensor",
         payload := [("name", .str (nm ++ " Temperature")), ("unit_of_measurement", .str "°C"), ("icon", .str "mdi:thermometer"), ("state_class", .str "measurement"), ("device_class", .str "temperature")],
         state := .int ((cleanNum "°C" temp).getD 0),
         unique_id_suffix := gid ++ "_temp",
         retain := false, expire_after := expire } ]
    else []
  let summaryPart : List EntityUpdate :=
    if isValid util then
      match pyFloatStr (pyStrip (pyReplace (pyStr util) "%" "")) with
      | some q =>
        [{ sensor_type := "sensor",
           payload := [("name", .str nm), ("icon", .str "mdi:expansion-card"), ("unit_of_measurement", .str "%"), ("state_class", .str "measurement")],
           state := .int (truncQ q),
           attributes := normalizeKeysLower (g.filter (fun p => isValid p.snd)),
           unique_id_suffix := gid ++ "_summary",
           retain := false, expire_after := expire } ]
      | _ => []
    else []
  loadPart ++ memPart ++ fanPart ++ powerPart ++ tempPart ++ summaryPart

/-- `GpuPluginCollector.parse` (gpu_plugin.py lines 75-252): empty or
non-dict input yields nothing; each GPU entry that is a dict contributes
its record updates in order.  Total — the loop body never raises. -/
def GpuPluginCollector.parse (interval : Int) (data : Val) : List EntityUpdate :=
  match data with
  | .dict kvs =>
    if kvs.isEmpty then []
    else
      (kvs.map (fun p =>
        match p.snd with
        | .dict g => recordUpdates interval p.fst g
        | _ => [])).flatten
  | _ => []

/-- The ordered candidate endpoint paths for the Coral TPU status script
(coral_tpu.py lines 17-21). -/
def ENDPOINT_PATHS : List String :=
  ["/plugins/coral/coral_status.php", "/plugins/dynamix/coral_status.php", "/state/coral_status.json"]

/-- `_get_status_icon` (coral_tpu.py lines 346-355). -/
def CoralTPUCollector.statusIcon (ts : String) : String :=
  if ts == "normal" then "mdi:speedometer"
  else if ts == "throttled_250" then "mdi:speedometer-medium"
  else if ts == "throttled_125" then "mdi:speedometer-slow"
  else if ts == "throttled_62" then "mdi:alert"
  else if ts == "shutdown_risk" then "mdi:alert-octagon"
  else "mdi:help-circle"

/-- The throttle-state display labels (coral_tpu.py lines 160-167). -/
def CoralTPUCollector.stateLabel (ts : String) : String :=
  if ts == "normal" then "Normal"
  else if ts == "throttled_250" then "Throttled (250 MHz)"
  else if ts == "throttled_125" then "Throttled (125 MHz)"
  else if ts == "throttled_62" then "Throttled (62.5 MHz)"
  else if ts == "shutdown_risk" then "Critical - Shutdown Risk"
  else ts

/-- `_build_pcie_attributes` (coral_tpu.py lines 296-344): each optional
field is added when present and convertible; conversion failures are
swallowed field-by-field. -/
def CoralTPUCollector.buildPcieAttributes (d : List (String × Val)) : List (String × Val) :=
  let devicePart :=
    match (dictGet d "device").getD .null with
    | Val.null => []
    | v => if v.truthy then [("device", v)] else []
  let trip (key out : String) : List (String × Val) :=
    match (dictGet d key).getD .null with
    | Val.null => []
    | v =>
      match pyIntCast v with
      | some i => [(out, Val.float (pyRound ((i : Q) / 1000) 1))]
      | _ => []
  let pollPart :=
    match (dictGet d "poll_interval").getD .null with
    | Val.null => []
    | v =>
      match pyIntCast v with
      | some i => [("poll_interval_ms", Val.int i)]
      | _ => []
  let throttlePart :=
    match (dictGet d "throttle_state").getD .null with
    | Val.null => []
    | v => if v.truthy then [("throttle_state", v)] else []
  devicePart ++ trip "trip_point0" "trip_point_250mhz" ++ trip "trip_point1" "trip_point_125mhz"
    ++ trip "trip_point2" "trip_point_62mhz" ++ trip "shutdown_temp" "shutdown_temp"
    ++ pollPart ++ throttlePart

/-- Loop body of `CoralTPUCollector.parse` for one PCIe device record
(coral_tpu.py lines 123-206): optional temperature sensor, optional
throttle-status sensor, unconditional presence binary sensor.  The
`id.replace` call raises when `id` is present but not a string. -/
def CoralTPUCollector.pcieStep (interval : Int) (device : Val) : Except String (List EntityUpdate) := do
  match device with
  | .dict d =>
    let idV := (dictGet d "id").getD (.str "unknown")
    let devNum ← match idV with
      | .str s => Except.ok (pyReplace s "apex_" "")
      | _ => Except.error "AttributeError: object has no attribute replace"
    let devPath := (dictGet d "device").getD (.str ("/dev/apex" ++ devNum))
    let expire := some (max (interval * 2) 60)
    let tempC := (dictGet d "temp_c").getD .null
    let tempPart : List EntityUpdate :=
      match tempC with
      | Val.null => []
      | v =>
        match pyFloatVal v with
        | some t =>
          [{ sensor_type := "sensor",
             payload := [("name", .str ("Coral TPU " ++ devNum ++ " Temperature")), ("unit_of_measurement", .str "°C"), ("icon", .str "mdi:chip"), ("state_class", .str "measurement"), ("device_class", .str "temperature")],
             state := .float (pyRound t 1),
             attributes := buildPcieAttributes d,
             unique_id_suffix := "coral_pcie_" ++ devNum ++ "_temp",
             retain := false, expire_after := expire } ]
        | _ => []
    let ts := (dictGet d "throttle_state").getD (.str "unknown")
    let statusCond : Bool :=
      match ts with
      | .str s => s ≠ "" && s ≠ "unknown"
      | v => v.truthy
    let display : Val :=
      match ts with
      | .str s => .str (stateLabel s)
      | v => v
    let icon : String :=
      match ts with
      | .str s => statusIcon s
      | _ => "mdi:help-circle"
    let statusPart : List EntityUpdate :=
      if statusCond then
        [{ sensor_type := "sensor",
           payload := [("name", .str ("Coral TPU " ++ devNum ++ " Status")), ("icon", .str icon)],
           state := display,
           attributes := [("raw_state", ts), ("temp_c", tempC), ("device", devPath)],
           unique_id_suffix := "coral_pcie_" ++ devNum ++ "_status",
           retain := false, expire_after := expire } ]
      else []
    let presence : EntityUpdate :=
      { sensor_type := "binary_sensor",
        payload := [("name", .str ("Coral TPU " ++ devNum)), ("device_class", .str "connectivity"), ("icon", .str "mdi:chip")],
        state := .str "ON",
        attributes := [("device", devPath), ("type", .str "pcie"), ("id", idV)],
        unique_id_suffix := "coral_pcie_" ++ devNum ++ "_presence",
        retain := true }
    return tempPart ++ statusPart ++ [presence]
  | _ => return []

/-- Loop body of `CoralTPUCollector.parse` for one USB device record at
position `idx` in the usb list (coral_tpu.py lines 209-263).  Note the
`unique_id_suffix` is built from the list index, not the device id. -/
def CoralTPUCollector.usbStep (interval : Int) (idx : Nat) (device : Val) : List EntityUpdate :=
  match device with
  | .dict d =>
    let devNum := toString idx
    let idV := (dictGet d "id").getD (.str ("usb_coral_" ++ devNum))
    let bus := (dictGet d "bus").getD (.str "unknown")
    let usbDevice := (dictGet d "device").getD (.str "unknown")
    let initialized := (dictGet d "initialized").getD (.bool false)
    let vendor := (dictGet d "vendor_id").getD (.str "")
    let product := (dictGet d "product_id").getD (.str "")
    let expire := some (max (interval * 2) 60)
    [ { sensor_type := "binary_sensor",
        payload := [("name", .str ("Coral USB " ++ devNum)), ("device_class", .str "connectivity"), ("icon", .str "mdi:usb")],
        state := .str "ON",
        attributes := [("bus", bus), ("usb_device", usbDevice), ("type", .str "usb"), ("id", idV), ("vendor_id", vendor), ("product_id", product)],
        unique_id_suffix := "coral_usb_" ++ devNum ++ "_presence",
        retain := true },
      { sensor_type := "binary_sensor",
        payload := [("name", .str ("Coral USB " ++ devNum ++ " Initialized")), ("device_class", .str "running"), ("icon", .str (if initialized.truthy then "mdi:check-circle" else "mdi:alert-circle"))],
        state := .str (if initialized.truthy then "ON" else "OFF"),
        attributes := [("vendor_id", vendor), ("product_id", product), ("description", .str (if initialized.truthy then "Ready for inference" else "Not yet accessed by application"))],
        unique_id_suffix := "coral_usb_" ++ devNum ++ "_initialized",
        retain := false, expire_after := expire } ]
  | _ => []

/-- One entry of the summary `devices` attribute (coral_tpu.py lines
268-272); raises when the device record is not a dict. -/
def CoralTPUCollector.deviceEntry (ty : String) (d : Val) : Except String Val := do
  let idv ← d.getD "id" (.str "unknown")
  return Val.dict [("type", .str ty), ("id", idv)]

/-- `CoralTPUCollector.parse` (coral_tpu.py lines 98-294).  The summary
count entity is emitted whenever devices exist or `self._endpoint` is
resolved — so the output depends on the collector instance's endpoint
state, which is why it is an argument here. -/
def CoralTPUCollector.parse (interval : Int) (endpoint : Option String) (data : Val) : Except String (List EntityUpdate) := do
  match data with
  | .dict kvs => do
    let pcieV := (dictGet kvs "pcie").getD (.list [])
    let usbV := (dictGet kvs "usb").getD (.list [])
    let pcieL ← asIterable pcieV
    let usbL ← asIterable usbV
    let pcieParts ← pcieL.mapM (pcieStep interval)
    let usbParts := (usbL.enum.map (fun p => usbStep interval p.fst p.snd)).flatten
    let total := pcieL.length + usbL.length
    let summaryPart ←
      if 0 < total ∨ endpoint.isSome then do
        let entsP ← pcieL.mapM (deviceEntry "pcie")
        let entsU ← usbL.mapM (deviceEntry "usb")
        pure [{ sensor_type := "sensor",
                payload := [("name", .str "Coral TPU Count"), ("icon", .str "mdi:counter"), ("state_class", .str "measurement")],
                state := Val.int (total : Int),
                attributes := [("pcie_count", Val.int (pcieL.length : Int)), ("usb_count", Val.int (usbL.length : Int)), ("devices", Val.list (entsP ++ entsU))],
                unique_id_suffix := "coral_tpu_count",
                retain := false, expire_after := some (max (interval * 2) 60) } ]
      else pure ([] : List EntityUpdate)
    return pcieParts.flatten ++ usbParts ++ summaryPart
  | _ => return []

/-- One tick's GraphQL environment: the result of `gql.query(q)` for each
query string — a value on success, `error` when the call raises. -/
def GqlEnv : Type := String → Except Unit Val

/-- `ArrayCollector.fetch` (array.py lines 69-75): issue the fixed query;
on any exception log and return the empty dict.  Returns the payload and
the list of queries issued this tick (always exactly one — the collector
keeps no state, so every tick reissues the same query). -/
def ArrayCollector.fetch (env : GqlEnv) : Val × List String :=
  (match env ArrayCollector.query with
   | .ok v => v
   | .error _ => Val.dict [], [ArrayCollector.query])

/-- `DockerCollector.fetch` (docker.py lines 38-44), same shape as the
array collector's. -/
def DockerCollector.fetch (env : GqlEnv) : Val × List String :=
  (match env DockerCollector.query with
   | .ok v => v
   | .error _ => Val.dict [], [DockerCollector.query])

/-- `VMsCollector.fetch` (vms.py lines 36-42), same shape as the array
collector's. -/
def VMsCollector.fetch (env : GqlEnv) : Val × List String :=
  (match env VMsCollector.query with
   | .ok v => v
   | .error _ => Val.dict [], [VMsCollector.query])

/-- The three candidate GraphQL queries of the memory collector
(memory.py lines 27-34), in order. -/
def MemoryCollector.queries : List String :=
  ["query { info { memory { total used free available cached buffers } } }",
   "query { dashboard { memory { total free used system vm docker } } }",
   "query { os { memory { totalBytes usedBytes freeBytes availableBytes } } }"]

/-- `_extract_memory_data` (memory.py lines 80-103): first dict found
under `info.memory`, `dashboard.memory` or `os.memory`.  A lookup that
would raise inside the surrounding `try` behaves exactly like a failed
extraction (the loop continues either way), so both are `none` here. -/
def MemoryCollector.extractMemoryData (r : Val) : Option Val :=
  match r with
  | .dict kvs =>
    let tryKey (k : String) : Option Val :=
      match dictGet kvs k with
      | some parent =>
        if parent.truthy then
          match parent with
          | .dict pkvs =>
            match dictGet pkvs "memory" with
            | some (Val.dict m) => if (Val.dict m).truthy then some (Val.dict m) else Option.none
            | _ => Option.none
          | _ => Option.none
        else Option.none
      | _ => Option.none
    match tryKey "info" with
    | some m => some m
    | _ =>
      match tryKey "dashboard" with
      | some m => some m
      | _ => tryKey "os"
  | _ => Option.none

/-- Mutable state of a `MemoryCollector` instance: the cached working
query and the permanent GraphQL-failure flag (memory.py lines 40-41). -/
structure MemState where
  workingQuery : Option String
  graphqlFailed : Bool

/-- What `psutil.virtual_memory()` yields on one tick, when it does not
raise. -/
structure PsutilMem where
  total : Int
  used : Int
  free : Int
  available : Int
  cached : Int
  buffers : Int
  percent : Q

/-- One tick's environment for the memory collector: GraphQL results and
the psutil reading (`none` when psutil raises). -/
structure MemEnv where
  gql : GqlEnv
  psutil : Option PsutilMem

/-- `_fetch_from_psutil` (memory.py lines 105-123): the psutil payload,
or the empty dict when psutil raises. -/
def MemoryCollector.psutilPayload (env : MemEnv) : Val :=
  match env.psutil with
  | some m =>
    Val.dict [("source", .str "psutil"),
              ("data", Val.dict [("total", .int m.total), ("used", .int m.used), ("free", .int m.free), ("available", .int m.available), ("cached", .int m.cached), ("buffers", .int m.buffers), ("percent", .float m.percent)])]
  | _ => Val.dict []

/-- The query order used by `_try_graphql_queries` (memory.py lines
56-60): the cached working query first, then the others. -/
def MemoryCollector.orderedQueries (s : MemState) : List String :=
  match s.workingQuery with
  | some wq => wq :: (MemoryCollector.queries.filter (fun q => q ≠ wq))
  | _ => MemoryCollector.queries

/-- The probe loop of `_try_graphql_queries` (memory.py lines 62-73):
walk the queries in order; a query succeeds when the call returns a
truthy result from which memory data extracts; exceptions and falsy or
unextractable results continue to the next query.  Returns the winning
query and its payload, plus the queries issued. -/
def MemoryCollector.tryLoop (env : MemEnv) : List String → Option (String × Val) × List String
  | [] => (Option.none, [])
  | q :: rest =>
    match env.gql q with
    | .ok r =>
      if r.truthy then
        match MemoryCollector.extractMemoryData r with
        | some m => (some (q, Val.dict [("source", .str "graphql"), ("data", m)]), [q])
        | _ =>
          let (res, issued) := MemoryCollector.tryLoop env rest
          (res, q :: issued)
      else
        let (res, issued) := MemoryCollector.tryLoop env rest
        (res, q :: issued)
    | .error _ =>
      let (res, issued) := MemoryCollector.tryLoop env rest
      (res, q :: issued)

/-- `MemoryCollector.fetch` as a state transition (memory.py lines
43-78): when the GraphQL path has not been marked failed, try the
queries; on success cache the working query, on a fully failed pass set
`graphqlFailed` forever and fall back to psutil.  Once `graphqlFailed`
is set, no query is ever issued again. -/
def MemoryCollector.fetchStep (env : MemEnv) (s : MemState) : MemState × Val × List String :=
  if s.graphqlFailed then
    (s, MemoryCollector.psutilPayload env, [])
  else
    match MemoryCollector.tryLoop env (MemoryCollector.orderedQueries s) with
    | (some (q, payload), issued) => ({ workingQuery := some q, graphqlFailed := false }, payload, issued)
    | (Option.none, issued) => ({ s with graphqlFailed := true }, MemoryCollector.psutilPayload env, issued)

/-- The per-tick lists of GraphQL queries issued by a memory collector
driven from state `s` through the given sequence of tick environments. -/
def MemoryCollector.queriesTrace (s : MemState) : List MemEnv → List (List String)
  | [] => []
  | e :: es =>
    let r := MemoryCollector.fetchStep e s
    r.2.2 :: MemoryCollector.queriesTrace r.1 es

/-- Outcome of one legacy HTTP GET: the call raises (transport error or
timeout), or returns a status code and a body whose `json()` either
parses (`some v`) or raises (`none`). -/
inductive ProbeResult where
  | raise : ProbeResult
  | resp : Int → Option Val → ProbeResult

/-- Acceptance test of `_discover_endpoint` (coral_tpu.py lines 364-383):
a candidate is accepted when the probe returns status 200 and a body
whose JSON parses to a dict; transport errors, other statuses, JSON
errors and non-dict JSON all move on to the next candidate. -/
def probeAccepted (r : ProbeResult) : Bool :=
  match r with
  | .resp s (some (Val.dict _)) => s == 200
  | _ => false

/-- `_discover_endpoint`'s candidate walk (coral_tpu.py lines 357-385),
returning the first accepted candidate (if any) and the number of probe
requests issued. -/
def discoverFrom (env : String → ProbeResult) : List String → Option String × Nat
  | [] => (Option.none, 0)
  | c :: rest =>
    if probeAccepted (env c) then (some c, 1)
    else
      let r := discoverFrom env rest
      (r.1, r.2 + 1)

/-- Mutable state of a `CoralTPUCollector` instance (coral_tpu.py lines
40-46): legacy-context presence, the resolved endpoint, and whether
discovery has run. -/
structure CoralState where
  hasCtx : Bool
  endpoint : Option String
  checked : Bool

/-- One tick's environment for the coral collector: the discovery probe
responses and the data-endpoint responses. -/
structure CoralEnv where
  probe : String → ProbeResult
  data : String → ProbeResult

/-- The data-fetch tail of `CoralTPUCollector.fetch` (coral_tpu.py lines
64-96) once an endpoint `ep` is resolved: 404 and other non-200
statuses, JSON errors, falsy bodies, and any exception inside the `try`
(including `len()` of an unsized `pcie`/`usb` value and `.get` on a
non-dict body) all yield the empty dict; otherwise the JSON body. -/
def CoralTPUCollector.dataFetch (env : CoralEnv) (ep : String) : Val :=
  match env.data ep with
  | .raise => Val.dict []
  | .resp st body =>
    if st == 404 then Val.dict []
    else if st != 200 then Val.dict []
    else
      match body with
      | some d =>
        if !d.truthy then Val.dict []
        else
          match d with
          | .dict kvs =>
            match lenOf ((dictGet kvs "pcie").getD (.list [])), lenOf ((dictGet kvs "usb").getD (.list [])) with
            | some _, some _ => d
            | _, _ => Val.dict []
          | _ => Val.dict []
      | _ => Val.dict []

/-- `CoralTPUCollector.fetch` as a state transition (coral_tpu.py lines
48-96): discovery runs only when `checked` is still false and is then
marked done regardless of outcome; an unresolved endpoint yields the
empty dict.  Returns the new state, the payload, and the number of
discovery probes issued this tick. -/
def CoralTPUCollector.fetchStep (env : CoralEnv) (s : CoralState) : CoralState × Val × Nat :=
  if !s.hasCtx then (s, Val.dict [], 0)
  else
    let (s1, probes) :=
      if !s.checked then
        let r := discoverFrom env.probe ENDPOINT_PATHS
        ({ s with endpoint := r.1, checked := true }, r.2)
      else (s, 0)
    match s1.endpoint with
    | some ep => (s1, CoralTPUCollector.dataFetch env ep, probes)
    | _ => (s1, Val.dict [], probes)

/-- Mutable state of a `GpuPluginCollector` instance (gpu_plugin.py
lines 24-29): legacy-context presence and the discovered GPU map
(`none` until discovery succeeds with a nonempty dict). -/
structure GpuState where
  hasCtx : Bool
  gpus : Option (List (String × Val))

/-- One tick's environment for the GPU plugin collector.  `discovery`
abstracts the net effect of `_discover_gpus` (coral of Dashboard HTML,
`gpustat_statusm` extraction and JSON decode, gpu_plugin.py lines
297-359): `some kvs` when the whole pipeline yields a dict `kvs`
(`self.gpus` is then set only if nonempty), `none` on any failure.
`stats` is the response of `gpustatusmulti.php`. -/
structure GpuEnv where
  discovery : Option (List (String × Val))
  stats : ProbeResult

/-- The stats-fetch tail of `GpuPluginCollector.fetch` (gpu_plugin.py
lines 44-73): non-200 statuses, JSON failures, falsy data and raised
exceptions all yield the empty dict. -/
def GpuPluginCollector.statsFetch (env : GpuEnv) : Val :=
  match env.stats with
  | .raise => Val.dict []
  | .resp st body =>
    if st != 200 then Val.dict []
    else
      match body with
      | some d => if !d.truthy then Val.dict [] else d
      | _ => Val.dict []

/-- `GpuPluginCollector.fetch` as a state transition (gpu_plugin.py
lines 31-73).  Discovery runs whenever `self.gpus is None` — including
every tick after a failed discovery, since `_discover_gpus` leaves
`self.gpus` as `None` on failure.  The boolean in the result records
whether this tick issued a discovery probe. -/
def GpuPluginCollector.fetchStep (env : GpuEnv) (s : GpuState) : GpuState × Val × Bool :=
  if !s.hasCtx then (s, Val.dict [], false)
  else
    match s.gpus with
    | Option.none =>
      let s1 : GpuState :=
        match env.discovery with
        | some kvs => if kvs.isEmpty then s else { s with gpus := some kvs }
        | _ => s
      match s1.gpus with
      | Option.none => (s1, Val.dict [], true)
      | some _ => (s1, GpuPluginCollector.statsFetch env, true)
    | some _ => (s, GpuPluginCollector.statsFetch env, false)

/-- Number of updates in a parse result (0 on a raised exception);
used to compare parse outputs without equality on `Val`. -/
def updCount (r : Except String (List EntityUpdate)) : Nat :=
  match r with
  | .ok l => l.length
  | .error _ => 0

/-- Payload names of the updates in a parse result. -/
def namesOf (r : Except String (List EntityUpdate)) : List String :=
  match r with
  | .ok l => l.map nameStr
  | .error _ => []

/-- States of the updates in a parse result. -/
def statesOf (r : Except String (List EntityUpdate)) : List Val :=
  match r with
  | .ok l => l.map (fun u => u.state)
  | .error _ => []

/-- Unique-id suffixes of the updates in a parse result. -/
def suffixesOf (r : Except String (List EntityUpdate)) : List String :=
  match r with
  | .ok l => l.map (fun u => u.unique_id_suffix)
  | .error _ => []

/-- The `n`-th update of a parse result (a default update on error or
out of range). -/
def updAt (r : Except String (List EntityUpdate)) (n : Nat) : EntityUpdate :=
  match r with
  | .ok l => l.getD n default
  | .error _ => default

/-- The `id` attribute of an update rendered as a string. -/
def attrIdStr (u : EntityUpdate) : String :=
  match dictGet u.attributes "id" with
  | some (.str s) => s
  | _ => ""

/-- Number of entries of a dict value (0 for anything else); used to
state that a payload is or is not the empty dict. -/
def dictLen (v : Val) : Nat :=
  match v with
  | .dict l => l.length
  | _ => 0

/-- A call of the array collector's parse made while the external
legacy-HTTP world is `w`: array.py's `parse` performs no I/O, so the
call ignores the world. -/
def ArrayCollector.parseRun (_w : VmSpecsEnv) (d : Val) : Except String (List EntityUpdate) :=
  ArrayCollector.parse d

/-- A call of the docker collector's parse in world `w` (no I/O). -/
def DockerCollector.parseRun (_w : VmSpecsEnv) (d : Val) : Except String (List EntityUpdate) :=
  DockerCollector.parse d

/-- A call of the memory collector's parse in world `w` (no I/O). -/
def MemoryCollector.parseRun (_w : VmSpecsEnv) (interval : Int) (d : Val) : Except String (List EntityUpdate) :=
  MemoryCollector.parse interval d

/-- A call of the system collector's parse in world `w` (no I/O). -/
def SystemCollector.parseRun (_w : VmSpecsEnv) (d : Val) : Except String (List EntityUpdate) :=
  SystemCollector.parse d

/-- A call of the GPU plugin collector's parse in world `w` (no I/O). -/
def GpuPluginCollector.parseRun (_w : VmSpecsEnv) (interval : Int) (d : Val) : List EntityUpdate :=
  GpuPluginCollector.parse interval d

/-- A call of the coral collector's parse in world `w` (no I/O). -/
def CoralTPUCollector.parseRun (_w : VmSpecsEnv) (interval : Int) (endpoint : Option String) (d : Val) : Except String (List EntityUpdate) :=
  CoralTPUCollector.parse interval endpoint d

/-- A call of the vms collector's parse in world `w`: vms.py's `parse`
awaits `_fetch_vm_specs()` — an HTTP GET — whenever domains are present,
so the call reads the world. -/
def VMsCollector.parseRun (w : VmSpecsEnv) (d : Val) : Except String (List EntityUpdate) :=
  VMsCollector.parse w d

/-- A GraphQL vms response with one running domain. -/
def c2Vms : Val :=
  .dict [("vms", .dict [("domains", .list [.dict [("name", .str "vm1"), ("state", .str "running")]])])]

/-- A legacy-HTTP world in which `VMMachines.php` lists no VM specs. -/
def c2SpecsEmpty : VmSpecsEnv := []

/-- A legacy-HTTP world in which `VMMachines.php` reports 2 vCPUs and
1024 MB for the VM named `vm1`. -/
def c2SpecsFull : VmSpecsEnv := [("vm1", ⟨2, 1024⟩)]

/-- The raw payload named in the claim about the memory scenario:
a top-level `memory` key. -/
def c4LegacyPayload : Val :=
  .dict [("memory", .dict [("total", .int 17179869184), ("used", .int 8589934592)])]

/-- The same memory figures in the wrapper shape the memory collector's
`fetch` actually produces (`source`/`data`). -/
def c4FetchPayload : Val :=
  .dict [("source", .str "graphql"), ("data", .dict [("total", .int 17179869184), ("used", .int 8589934592)])]

/-- Probe environment of the resolver scenario: the first candidate
returns HTTP 404, the second HTTP 200 with a JSON object, the third
would raise if it were ever probed. -/
def c5Probe : String → ProbeResult := fun p =>
  if p == "/plugins/coral/coral_status.php" then .resp 404 Option.none
  else if p == "/plugins/dynamix/coral_status.php" then .resp 200 (some (.dict [("pcie", .list [])]))
  else .raise

/-- A memory-collector tick environment in which every GraphQL query
raises and psutil works. -/
def c6EnvFail : MemEnv :=
  ⟨fun _ => .error (), some ⟨17179869184, 8589934592, 8589934592, 8589934592, 0, 0, 50⟩⟩

/-- The GPU record of the sibling-field scenario: invalid `temp`,
valid `util`. -/
def c7Data : Val :=
  .dict [("gpu0", .dict [("name", .str "XGPU"), ("temp", .str "N/A"), ("util", .str "42%")])]

/-- The GPU record whose `util` passes `is_valid` (the check strips the
watt suffix) but fails the load conversion (which strips only percent). -/
def c10Data : Val :=
  .dict [("gpu0", .dict [("util", .str "50W")])]

/-- First coral tick: two USB devices, `usbB` at index 1. -/
def c8Usb1 : Val :=
  .dict [("usb", .list [.dict [("id", .str "usbA")], .dict [("id", .str "usbB")]])]

/-- Second coral tick: `usbA` is gone, the same device `usbB` is now at
index 0. -/
def c8Usb2 : Val :=
  .dict [("usb", .list [.dict [("id", .str "usbB")]])]

/-- A GPU-plugin tick environment in which discovery fails and the stats
request raises. -/
def c3GpuEnvFail : GpuEnv := ⟨Option.none, .raise⟩

/-- A freshly constructed GPU-plugin collector with legacy credentials
configured. -/
def c3GpuStart : GpuState := ⟨true, Option.none⟩

/-- A memory-collector tick environment for the permanence claim: every
GraphQL query raises; psutil reports 16 GiB total, 8 GiB used. -/
def c9EnvFail : MemEnv :=
  ⟨fun _ => .error (), some ⟨17179869184, 8589934592, 8589934592, 8589934592, 0, 0, 50⟩⟩

/-- A coral tick environment in which every HTTP request raises. -/
def c3CoralEnv : CoralEnv := ⟨fun _ => .raise, fun _ => .raise⟩

/-- A coral tick environment whose discovery probes behave as in the
resolver scenario. -/
def c5CoralEnv : CoralEnv := ⟨c5Probe, fun _ => .raise⟩

/-- A docker container record named `web`, running. -/
def c8DockA : Val :=
  .dict [("names", .list [.str "/web"]), ("state", .str "running"), ("image", .str "nginx"), ("status", .str "Up"), ("id", .str "")]

/-- The same container `web` on a later tick, now exited. -/
def c8DockB : Val :=
  .dict [("names", .list [.str "/web"]), ("state", .str "exited"), ("image", .str "nginx"), ("status", .str "Down"), ("id", .str "")]

/-- C7: in the GPU plugin collector's parse, a numeric-invalid value for
one field omits only the entities depending on that field: for a GPU
record with `temp` = `N/A` and `util` = `42%`, the output contains the
Load entity (state 42) and the summary entity, and no Temperature
entity. -/
theorem c7_invalid_field_skips_only_its_entity :
    (GpuPluginCollector.parse 30 c7Data).map nameStr = ["XGPU Load", "XGPU"] ∧
    (GpuPluginCollector.parse 30 c7Data).map (fun u => u.unique_id_suffix) = ["gpu0_load", "gpu0_summary"] ∧
    (GpuPluginCollector.parse 30 c7Data).map (fun u => u.state) = [.int 42, .int 42] ∧
    (GpuPluginCollector.parse 30 c7Data).all (fun u => !(nameIs u "XGPU Temperature") && !(iconStr u == "mdi:thermometer")) = true := by
  refine ⟨?_, ?_, ?_, ?_⟩ <;> rfl

/-- C10: a GPU `util` value of `50W` passes `is_valid` (which strips the
watt suffix) but fails the load conversion (which strips only the
percent sign); the Load entity is still emitted with state 0 rather than
being omitted. -/
theorem c10_suffix_mismatch_emits_zero :
    GpuPluginCollector.isValid (.str "50W") = true ∧
    GpuPluginCollector.cleanNum "%" (.str "50W") = Option.none ∧
    (GpuPluginCollector.parse 30 c10Data).map (fun u => u.unique_id_suffix) = ["gpu0_load"] ∧
    (GpuPluginCollector.parse 30 c10Data).map (fun u => u.state) = [.int 0] := by
  refine ⟨?_, ?_, ?_, ?_⟩ <;> rfl

/-- C4 counterexample: on the raw payload with a top-level `memory` key
named by the claim, the memory collector's parse emits nothing at all —
in particular no `Memory Total` or `Memory Used` entity — because parse
reads the nested `data` key of the `source`/`data` wrapper its own
`fetch` produces. -/
theorem c4_counterexample_memory_key_yields_nothing :
    MemoryCollector.parse 30 c4LegacyPayload = .ok [] := by
  rfl

/-- C4 amended: for the same byte counts delivered in the wrapper shape
`fetch` produces (`source`/`data`), parse yields `Memory Total` with
state 16.0 and `Memory Used` with state 8.0 (GiB, 2-decimal rounding),
plus the derived `Memory Free` entity with state 8.0. -/
theorem c4_amended_memory_scenario :
    namesOf (MemoryCollector.parse 30 c4FetchPayload) = ["Memory Total", "Memory Used", "Memory Free"] ∧
    statesOf (MemoryCollector.parse 30 c4FetchPayload) = [.float 16, .float 8, .float 8] := by
  exact ⟨rfl, rfl⟩

/-- C2 counterexample: two calls of the vms collector's parse on the
same raw input, made while the external `VMMachines.php` endpoint
reports different VM specs, return different update sequences — parse
is not a pure function of its raw input. -/
theorem c2_counterexample_vms_parse_reads_network :
    VMsCollector.parseRun c2SpecsEmpty c2Vms ≠ VMsCollector.parseRun c2SpecsFull c2Vms := by
  intro h
  exact absurd (congrArg updCount h) (by decide)

/-- C2 amended: parse is a pure function of its raw input for the array,
docker, memory, system, gpu_plugin and coral_tpu collectors — a call
gives the same updates in any two states of the external world — while
the vms collector's parse reads the network (see the counterexample). -/
theorem c2_amended_purity_except_vms :
    (∀ w1 w2 d, ArrayCollector.parseRun w1 d = ArrayCollector.parseRun w2 d) ∧
    (∀ w1 w2 d, DockerCollector.parseRun w1 d = DockerCollector.parseRun w2 d) ∧
    (∀ w1 w2 i d, MemoryCollector.parseRun w1 i d = MemoryCollector.parseRun w2 i d) ∧
    (∀ w1 w2 d, SystemCollector.parseRun w1 d = SystemCollector.parseRun w2 d) ∧
    (∀ w1 w2 i d, GpuPluginCollector.parseRun w1 i d = GpuPluginCollector.parseRun w2 i d) ∧
    (∀ w1 w2 i ep d, CoralTPUCollector.parseRun w1 i ep d = CoralTPUCollector.parseRun w2 i ep d) := by
  exact ⟨fun _ _ _ => rfl, fun _ _ _ => rfl, fun _ _ _ _ => rfl,
         fun _ _ _ => rfl, fun _ _ _ _ => rfl, fun _ _ _ _ _ => rfl⟩

/-- Lookup of a key absent from a dict returns the supplied default. -/
theorem Val.getD_absent {kvs : List (String × Val)} {k : String} {d : Val}
    (h : dictGet kvs k = Option.none) : Val.getD (.dict kvs) k d = .ok d := by
  simp [Val.getD, h]

/-- C5: probing the ordered candidate list, when every candidate before
`ck` is rejected and `ck` is accepted (HTTP 200 with a JSON-object
body), issues exactly one probe per candidate up to and including `ck`
and resolves to `ck`; a first fetch on a fresh collector stores the
resolved path and marks discovery done. -/
theorem c5_resolver_probes_exactly_k :
    (∀ (env : String → ProbeResult) (pre : List String) (ck : String) (rest : List String),
      (∀ c ∈ pre, probeAccepted (env c) = false) →
      probeAccepted (env ck) = true →
      discoverFrom env (pre ++ ck :: rest) = (some ck, pre.length + 1)) ∧
    (∀ (e : CoralEnv) (s : CoralState), s.hasCtx = true → s.checked = false →
      (CoralTPUCollector.fetchStep e s).1.endpoint = (discoverFrom e.probe ENDPOINT_PATHS).1 ∧
      (CoralTPUCollector.fetchStep e s).1.checked = true ∧
      (CoralTPUCollector.fetchStep e s).2.2 = (discoverFrom e.probe ENDPOINT_PATHS).2) := by
  constructor
  · intro env pre
    induction pre with
    | nil =>
      intro ck rest _h hacc
      simp [discoverFrom, hacc]
    | cons c pre ih =>
      intro ck rest h hacc
      have hc : probeAccepted (env c) = false := h c (List.mem_cons_self c pre)
      have ht := ih ck rest (fun x hx => h x (List.mem_cons_of_mem c hx)) hacc
      simp [discoverFrom, hc, ht]
  · intro e s h1 h2
    cases hd : (discoverFrom e.probe ENDPOINT_PATHS).1 <;>
      simp [CoralTPUCollector.fetchStep, h1, h2, hd]

/-- C5 witness: the concrete scenario — first candidate 404, second 200
with a JSON object — resolves to the second candidate after exactly two
probes (the third is never probed). -/
theorem c5_resolver_witness :
    discoverFrom c5Probe ENDPOINT_PATHS = (some "/plugins/dynamix/coral_status.php", 2) ∧
    (CoralTPUCollector.fetchStep c5CoralEnv ⟨true, Option.none, false⟩).1.endpoint = some "/plugins/dynamix/coral_status.php" := by
  have h := c5_resolver_probes_exactly_k.1 c5Probe ["/plugins/coral/coral_status.php"]
    "/plugins/dynamix/coral_status.php" ["/state/coral_status.json"] (by decide) (by decide)
  have h2 := (c5_resolver_probes_exactly_k.2 c5CoralEnv ⟨true, Option.none, false⟩ rfl rfl).1
  exact ⟨h, by rw [h2]; exact congrArg Prod.fst h⟩

/-- C6 counterexample: when every GraphQL query raises on a fresh memory
collector, that tick's fetch does not return the empty payload — it
returns the 2-entry psutil wrapper — and the next tick issues zero
GraphQL queries rather than re-attempting the query, contradicting the
claim for the memory collector. -/
theorem c6_counterexample_memory_fallback :
    (MemoryCollector.fetchStep c6EnvFail ⟨Option.none, false⟩).2.2 = MemoryCollector.queries ∧
    dictLen (MemoryCollector.fetchStep c6EnvFail ⟨Option.none, false⟩).2.1 = 2 ∧
    (MemoryCollector.fetchStep c6EnvFail (MemoryCollector.fetchStep c6EnvFail ⟨Option.none, false⟩).1).2.2 = [] := by
  refine ⟨rfl, rfl, rfl⟩

/-- C6 amended: for the stateless structured-query collectors (array,
docker, vms) every fetch issues exactly the fixed query — so a failed
tick is re-attempted on the next tick with no disablement — and a raised
query yields the empty raw payload for that tick.  (The memory collector
instead falls back to psutil and permanently disables its GraphQL path;
the system collector issues no upstream query at all.) -/
theorem c6_amended_stateless_query_fetch :
    (∀ env : GqlEnv, (ArrayCollector.fetch env).2 = [ArrayCollector.query] ∧
      (env ArrayCollector.query = .error () → (ArrayCollector.fetch env).1 = Val.dict [])) ∧
    (∀ env : GqlEnv, (DockerCollector.fetch env).2 = [DockerCollector.query] ∧
      (env DockerCollector.query = .error () → (DockerCollector.fetch env).1 = Val.dict [])) ∧
    (∀ env : GqlEnv, (VMsCollector.fetch env).2 = [VMsCollector.query] ∧
      (env VMsCollector.query = .error () → (VMsCollector.fetch env).1 = Val.dict [])) := by
  refine ⟨fun env => ⟨rfl, fun h => ?_⟩, fun env => ⟨rfl, fun h => ?_⟩, fun env => ⟨rfl, fun h => ?_⟩⟩
  · simp [ArrayCollector.fetch, h]
  · simp [DockerCollector.fetch, h]
  · simp [VMsCollector.fetch, h]

/-- C6 witness: a tick environment in which every query raises — the
array collector's fetch still issues its query and returns the empty
payload. -/
theorem c6_amended_witness :
    (ArrayCollector.fetch (fun _ => .error ())).1 = Val.dict [] ∧
    (ArrayCollector.fetch (fun _ => .error ())).2 = [ArrayCollector.query] :=
  ⟨(c6_amended_stateless_query_fetch.1 (fun _ => .error ())).2 rfl,
   (c6_amended_stateless_query_fetch.1 (fun _ => .error ())).1⟩

/-- Once the GraphQL-failed flag is set, a fetch step is pure psutil
fallback: state unchanged, no queries issued. -/
theorem MemoryCollector.fetchStep_failed (env : MemEnv) (s : MemState)
    (h : s.graphqlFailed = true) :
    MemoryCollector.fetchStep env s = (s, MemoryCollector.psutilPayload env, []) := by
  simp [MemoryCollector.fetchStep, h]

/-- C9: the GraphQL-failed flag of the memory collector is permanent:
a fetch in a failed state issues no query, goes straight to psutil and
leaves the state unchanged; the flag is set by any pass of the query
loop that finds no working query; and along any sequence of future
ticks a failed collector issues no GraphQL query ever again. -/
theorem c9_graphql_failed_is_permanent :
    (∀ (env : MemEnv) (s : MemState), s.graphqlFailed = true →
      MemoryCollector.fetchStep env s = (s, MemoryCollector.psutilPayload env, [])) ∧
    (∀ (env : MemEnv) (s : MemState), s.graphqlFailed = false →
      (MemoryCollector.tryLoop env (MemoryCollector.orderedQueries s)).1 = Option.none →
      (MemoryCollector.fetchStep env s).1.graphqlFailed = true) ∧
    (∀ (envs : List MemEnv) (s : MemState), s.graphqlFailed = true →
      MemoryCollector.queriesTrace s envs = envs.map (fun _ => [])) := by
  refine ⟨fun env s h => MemoryCollector.fetchStep_failed env s h, ?_, ?_⟩
  · intro env s h hloop
    rcases hm : MemoryCollector.tryLoop env (MemoryCollector.orderedQueries s) with ⟨res, issued⟩
    rw [hm] at hloop
    simp at hloop
    subst hloop
    simp [MemoryCollector.fetchStep, h, hm]
  · intro envs
    induction envs with
    | nil => intro s _h; rfl
    | cons e es ih =>
      intro s h
      simp [MemoryCollector.queriesTrace, MemoryCollector.fetchStep_failed e s h, ih s h]

/-- C9 witness: a concretely failed memory collector ticked twice in an
environment whose queries would raise anyway — both ticks issue zero
queries and the payload is the psutil fallback. -/
theorem c9_witness :
    MemoryCollector.fetchStep c9EnvFail ⟨Option.none, true⟩ = (⟨Option.none, true⟩, MemoryCollector.psutilPayload c9EnvFail, []) ∧
    MemoryCollector.queriesTrace ⟨Option.none, true⟩ [c9EnvFail, c9EnvFail] = [[], []] := by
  refine ⟨c9_graphql_failed_is_permanent.1 c9EnvFail ⟨Option.none, true⟩ rfl, ?_⟩
  have h := c9_graphql_failed_is_permanent.2.2 [c9EnvFail, c9EnvFail] ⟨Option.none, true⟩ rfl
  simpa using h

/-- C3 counterexample: a GPU plugin collector whose first discovery
fails (its `gpus` map stays unset) issues a discovery probe again on the
second fetch — endpoint/target resolution is not attempted at most once
per instance for this collector, contradicting the claim. -/
theorem c3_counterexample_gpu_rediscovers :
    (GpuPluginCollector.fetchStep c3GpuEnvFail c3GpuStart).2.2 = true ∧
    (GpuPluginCollector.fetchStep c3GpuEnvFail (GpuPluginCollector.fetchStep c3GpuEnvFail c3GpuStart).1).2.2 = true ∧
    (GpuPluginCollector.fetchStep c3GpuEnvFail c3GpuStart).2.1 = Val.dict [] := by
  refine ⟨rfl, rfl, rfl⟩

/-- C3 amended: the coral collector resolves at most once per instance —
after discovery has run, a fetch issues no probe, leaves the state
untouched, and an exhausted (unresolved) endpoint yields the empty
payload forever — and any first fetch with credentials marks discovery
done.  The GPU plugin collector stops probing only once discovery has
succeeded; while its GPU map is unresolved each fetch returns the empty
payload but re-probes on the next tick. -/
theorem c3_amended_resolution_once :
    (∀ (e : CoralEnv) (s : CoralState), s.checked = true →
      (CoralTPUCollector.fetchStep e s).1 = s ∧
      (CoralTPUCollector.fetchStep e s).2.2 = 0 ∧
      (s.endpoint = Option.none → (CoralTPUCollector.fetchStep e s).2.1 = Val.dict [])) ∧
    (∀ (e : CoralEnv) (s : CoralState), s.hasCtx = true →
      (CoralTPUCollector.fetchStep e s).1.checked = true) ∧
    (∀ (e : GpuEnv) (s : GpuState) (g : List (String × Val)), s.gpus = some g →
      (GpuPluginCollector.fetchStep e s).1 = s ∧ (GpuPluginCollector.fetchStep e s).2.2 = false) ∧
    (∀ (e : GpuEnv) (s : GpuState), (GpuPluginCollector.fetchStep e s).1.gpus = Option.none →
      (GpuPluginCollector.fetchStep e s).2.1 = Val.dict []) := by
  refine ⟨?_, ?_, ?_, ?_⟩
  · intro e s h
    cases hc : s.hasCtx <;> cases he : s.endpoint <;>
      simp [CoralTPUCollector.fetchStep, hc, h, he]
  · intro e s h
    cases hk : s.checked <;> cases he : s.endpoint <;>
      cases hd : (discoverFrom e.probe ENDPOINT_PATHS).1 <;>
      simp [CoralTPUCollector.fetchStep, h, hk, he, hd]
  · intro e s g h
    cases hc : s.hasCtx <;> simp [GpuPluginCollector.fetchStep, hc, h]
  · intro e s h
    cases hc : s.hasCtx
    · simp [GpuPluginCollector.fetchStep, hc]
    · cases hg : s.gpus with
      | none =>
        cases hd : e.discovery with
        | none => simp [GpuPluginCollector.fetchStep, hc, hg, hd]
        | some kvs =>
          by_cases hk : kvs.isEmpty
          · simp [GpuPluginCollector.fetchStep, hc, hg, hd, hk]
          · exfalso
            simp [GpuPluginCollector.fetchStep, hc, hg, hd, hk] at h
      | some g =>
        exfalso
        simp [GpuPluginCollector.fetchStep, hc, hg] at h

/-- C3 witness: a checked coral collector with no resolved endpoint
stays unchanged, probes nothing and yields the empty payload; a GPU
collector with a resolved map never re-probes. -/
theorem c3_amended_witness :
    (CoralTPUCollector.fetchStep c3CoralEnv ⟨true, Option.none, true⟩).1 = ⟨true, Option.none, true⟩ ∧
    (CoralTPUCollector.fetchStep c3CoralEnv ⟨true, Option.none, true⟩).2.2 = 0 ∧
    (CoralTPUCollector.fetchStep c3CoralEnv ⟨true, Option.none, true⟩).2.1 = Val.dict [] ∧
    (GpuPluginCollector.fetchStep c3GpuEnvFail ⟨true, some [("0", Val.dict [])]⟩).2.2 = false := by
  obtain ⟨h1, h2, h3⟩ := c3_amended_resolution_once.1 c3CoralEnv ⟨true, Option.none, true⟩ rfl
  exact ⟨h1, h2, h3 rfl,
    (c3_amended_resolution_once.2.2.1 c3GpuEnvFail ⟨true, some [("0", Val.dict [])]⟩ [("0", Val.dict [])] rfl).2⟩

/-- C1 counterexample: the coral collector's parse on the empty dict is
not empty once the instance's endpoint is resolved — it emits the
summary count entity — so the claim's "regardless of the collector
instance's internal state" fails. -/
theorem c1_counterexample_coral_summary_on_empty :
    updCount (CoralTPUCollector.parse 30 (some "/plugins/coral/coral_status.php") (.dict [])) = 1 ∧
    suffixesOf (CoralTPUCollector.parse 30 (some "/plugins/coral/coral_status.php") (.dict [])) = ["coral_tpu_count"] := by
  exact ⟨rfl, rfl⟩

/-- C1 amended: a parse call on an empty dict, or on a dict missing the
collector's expected top-level key, returns the empty update list and
raises no exception for the array, docker, vms, memory, system and
gpu_plugin collectors, and for a coral collector whose endpoint is
unresolved; a coral collector with a resolved endpoint instead emits
exactly the summary count entity with state 0 (and still never
raises). -/
theorem c1_amended_empty_input_parses :
    (∀ kvs, dictGet kvs "array" = Option.none → ArrayCollector.parse (.dict kvs) = .ok []) ∧
    (∀ kvs, dictGet kvs "docker" = Option.none → DockerCollector.parse (.dict kvs) = .ok []) ∧
    (∀ (env : VmSpecsEnv) kvs, dictGet kvs "vms" = Option.none → VMsCollector.parse env (.dict kvs) = .ok []) ∧
    (∀ (i : Int) kvs, dictGet kvs "data" = Option.none → MemoryCollector.parse i (.dict kvs) = .ok []) ∧
    (∀ kvs, dictGet kvs "uptime_seconds" = Option.none → SystemCollector.parse (.dict kvs) = .ok []) ∧
    (∀ i : Int, GpuPluginCollector.parse i (.dict []) = []) ∧
    (∀ (i : Int) kvs, dictGet kvs "pcie" = Option.none → dictGet kvs "usb" = Option.none →
      CoralTPUCollector.parse i Option.none (.dict kvs) = .ok [] ∧
      ∀ ep : String, CoralTPUCollector.parse i (some ep) (.dict kvs) = .ok
        [⟨"sensor",
          [("name", .str "Coral TPU Count"), ("icon", .str "mdi:counter"), ("state_class", .str "measurement")],
          .int 0,
          [("pcie_count", .int 0), ("usb_count", .int 0), ("devices", .list [])],
          "coral_tpu_count", false, some (max (i * 2) 60)⟩]) := by
  refine ⟨?_, ?_, ?_, ?_, ?_, ?_, ?_⟩
  · intro kvs h
    unfold ArrayCollector.parse
    rw [Val.getD_absent h]
    rfl
  · intro kvs h
    unfold DockerCollector.parse
    rw [Val.getD_absent h]
    rfl
  · intro env kvs h
    unfold VMsCollector.parse
    rw [Val.getD_absent h]
    rfl
  · intro i kvs h
    cases kvs with
    | nil => rfl
    | cons p rest =>
      unfold MemoryCollector.parse
      rw [Val.getD_absent h]
      rfl
  · intro kvs h
    unfold SystemCollector.parse
    rw [Val.getD_absent h]
    rfl
  · intro i
    rfl
  · intro i kvs h1 h2
    constructor
    · unfold CoralTPUCollector.parse
      simp only [h1, h2]
      rfl
    · intro ep
      unfold CoralTPUCollector.parse
      simp only [h1, h2]
      rfl

/-- C1 witness: the amended statement at the empty dict. -/
theorem c1_amended_witness :
    ArrayCollector.parse (.dict []) = .ok [] ∧
    DockerCollector.parse (.dict []) = .ok [] ∧
    VMsCollector.parse [] (.dict []) = .ok [] ∧
    MemoryCollector.parse 30 (.dict []) = .ok [] ∧
    SystemCollector.parse (.dict []) = .ok [] ∧
    GpuPluginCollector.parse 30 (.dict []) = [] ∧
    CoralTPUCollector.parse 30 Option.none (.dict []) = .ok [] :=
  ⟨c1_amended_empty_input_parses.1 [] rfl,
   c1_amended_empty_input_parses.2.1 [] rfl,
   c1_amended_empty_input_parses.2.2.1 [] [] rfl,
   c1_amended_empty_input_parses.2.2.2.1 30 [] rfl,
   c1_amended_empty_input_parses.2.2.2.2.1 [] rfl,
   c1_amended_empty_input_parses.2.2.2.2.2.1 30,
   (c1_amended_empty_input_parses.2.2.2.2.2.2 30 [] rfl rfl).1⟩

/-- Every update emitted for one GPU record carries an icon/suffix pair
from the fixed six-entry table — the suffix is the GPU id plus a tag
determined by the entity kind, never by the record's field values. -/
theorem GpuPluginCollector.mem_recordUpdates {i : Int} {gid : String}
    {g : List (String × Val)} {u : EntityUpdate}
    (h : u ∈ GpuPluginCollector.recordUpdates i gid g) :
    (iconStr u = "mdi:chart-line" ∧ u.unique_id_suffix = gid ++ "_load") ∨
    (iconStr u = "mdi:memory" ∧ u.unique_id_suffix = gid ++ "_mem") ∨
    (iconStr u = "mdi:fan" ∧ u.unique_id_suffix = gid ++ "_fan") ∨
    (iconStr u = "mdi:flash" ∧ u.unique_id_suffix = gid ++ "_power") ∨
    (iconStr u = "mdi:thermometer" ∧ u.unique_id_suffix = gid ++ "_temp") ∨
    (iconStr u = "mdi:expansion-card" ∧ u.unique_id_suffix = gid ++ "_summary") := by
  unfold GpuPluginCollector.recordUpdates at h
  simp only [List.mem_append] at h
  rcases h with ((((h | h) | h) | h) | h) | h
  · split at h
    · simp only [List.mem_singleton] at h
      subst h
      exact Or.inl ⟨rfl, rfl⟩
    · simp at h
  · split at h
    · split at h
      · simp only [List.mem_singleton] at h
        subst h
        exact Or.inr (Or.inl ⟨rfl, rfl⟩)
      · simp at h
    · simp at h
  · split at h
    · simp only [List.mem_singleton] at h
      subst h
      exact Or.inr (Or.inr (Or.inl ⟨rfl, rfl⟩))
    · simp at h
  · split at h
    · simp only [List.mem_singleton] at h
      subst h
      exact Or.inr (Or.inr (Or.inr (Or.inl ⟨rfl, rfl⟩)))
    · simp at h
  · split at h
    · simp only [List.mem_singleton] at h
      subst h
      exact Or.inr (Or.inr (Or.inr (Or.inr (Or.inl ⟨rfl, rfl⟩))))
    · simp at h
  · split at h
    · split at h
      · simp only [List.mem_singleton] at h
        subst h
        exact Or.inr (Or.inr (Or.inr (Or.inr (Or.inr ⟨rfl, rfl⟩))))
      · simp at h
    · simp at h

/-- The suffixes a docker container contributes are determined by its
extracted name alone: nothing when the `names` field is falsy, otherwise
the single suffix built from the name. -/
theorem DockerCollector.containerStep_suffixes (c : Val) (l : List EntityUpdate) (n : Option String)
    (hs : DockerCollector.containerStep c = .ok l)
    (hn : DockerCollector.containerName c = .ok n) :
    l.map (fun u => u.unique_id_suffix) =
      (match n with | some m => ["docker_" ++ m ++ "_state"] | _ => []) := by
  unfold DockerCollector.containerStep at hs
  rw [hn] at hs
  cases n with
  | none =>
    simp only [bind, Except.bind] at hs
    cases hs
    rfl
  | some m =>
    simp only [bind, Except.bind] at hs
    cases hf : DockerCollector.restFields c with
    | error e =>
      rw [hf] at hs
      cases hs
    | ok f =>
      rw [hf] at hs
      cases hs
      rfl

/-- C8 counterexample: the coral collector's USB suffixes are positional.
On the first tick the device with id `usbB` sits at index 1 and its
presence entity has suffix `coral_usb_1_presence`; on the next tick the
same device sits at index 0 and gets `coral_usb_0_presence` — the same
logical device id carries different unique-id suffixes across the two
parse calls. -/
theorem c8_counterexample_usb_suffix_positional :
    attrIdStr (updAt (CoralTPUCollector.parse 30 Option.none c8Usb1) 2) = "usbB" ∧
    (updAt (CoralTPUCollector.parse 30 Option.none c8Usb1) 2).unique_id_suffix = "coral_usb_1_presence" ∧
    attrIdStr (updAt (CoralTPUCollector.parse 30 Option.none c8Usb2) 0) = "usbB" ∧
    (updAt (CoralTPUCollector.parse 30 Option.none c8Usb2) 0).unique_id_suffix = "coral_usb_0_presence" ∧
    ("coral_usb_1_presence" == "coral_usb_0_presence") = false := by
  exact ⟨rfl, rfl, rfl, rfl, rfl⟩

/-- C8 amended: unique-id suffixes are stable for the docker and GPU
plugin collectors — a docker container's updates carry suffixes
determined by its container name alone, and two updates of the same
entity kind (same icon) emitted for the same GPU id in any two parse
calls carry the same suffix.  (The coral collector's USB suffixes are
positional, see the counterexample.) -/
theorem c8_amended_suffix_stability :
    (∀ (c1 c2 : Val) (n : Option String) (l1 l2 : List EntityUpdate),
      DockerCollector.containerName c1 = .ok n →
      DockerCollector.containerName c2 = .ok n →
      DockerCollector.containerStep c1 = .ok l1 →
      DockerCollector.containerStep c2 = .ok l2 →
      l1.map (fun u => u.unique_id_suffix) = l2.map (fun u => u.unique_id_suffix)) ∧
    (∀ (i1 i2 : Int) (gid : String) (g1 g2 : List (String × Val)) (u1 u2 : EntityUpdate),
      u1 ∈ GpuPluginCollector.recordUpdates i1 gid g1 →
      u2 ∈ GpuPluginCollector.recordUpdates i2 gid g2 →
      iconStr u1 = iconStr u2 →
      u1.unique_id_suffix = u2.unique_id_suffix) := by
  constructor
  · intro c1 c2 n l1 l2 hn1 hn2 hs1 hs2
    rw [DockerCollector.containerStep_suffixes c1 l1 n hs1 hn1,
        DockerCollector.containerStep_suffixes c2 l2 n hs2 hn2]
    cases n <;> rfl
  · intro i1 i2 gid g1 g2 u1 u2 h1 h2 hIcon
    rcases GpuPluginCollector.mem_recordUpdates h1 with
      ⟨hi1, hs1⟩ | ⟨hi1, hs1⟩ | ⟨hi1, hs1⟩ | ⟨hi1, hs1⟩ | ⟨hi1, hs1⟩ | ⟨hi1, hs1⟩ <;>
    rcases GpuPluginCollector.mem_recordUpdates h2 with
      ⟨hi2, hs2⟩ | ⟨hi2, hs2⟩ | ⟨hi2, hs2⟩ | ⟨hi2, hs2⟩ | ⟨hi2, hs2⟩ | ⟨hi2, hs2⟩ <;>
    rw [hi1, hi2] at hIcon <;>
    first
      | exact absurd hIcon (by decide)
      | rw [hs1, hs2]

/-- C8 witness: the same container `web` across two ticks (running, then
exited) — both calls emit the single suffix `docker_web_state`. -/
theorem c8_amended_witness :
    suffixesOf (DockerCollector.containerStep c8DockA) = suffixesOf (DockerCollector.containerStep c8DockB) := by
  have h := c8_amended_suffix_stability.1 c8DockA c8DockB (some "web")
    [DockerCollector.mkUpdate "web" ⟨"running", Val.str "nginx", Val.str "Up", Val.bool false, [], Val.str ""⟩]
    [DockerCollector.mkUpdate "web" ⟨"exited", Val.str "nginx", Val.str "Down", Val.bool false, [], Val.str ""⟩]
    rfl rfl rfl rfl
  rw [show DockerCollector.containerStep c8DockA =
        Except.ok [DockerCollector.mkUpdate "web" ⟨"running", Val.str "nginx", Val.str "Up", Val.bool false, [], Val.str ""⟩] from rfl,
      show DockerCollector.containerStep c8DockB =
        Except.ok [DockerCollector.mkUpdate "web" ⟨"exited", Val.str "nginx", Val.str "Down", Val.bool false, [], Val.str ""⟩] from rfl]
  exact h
